import Mathlib

/-!
Shallow embedding of the core logic of the "Expenses-with-wife" application
(src/src/App.tsx and its near-duplicate variants src/unnamed/part_000..002).

JavaScript strings are modelled as `List Char`; JavaScript numbers as exact
rationals `ℚ` (a `JsNum` distinguishes NaN and the two infinities, so that
`Number.isFinite` is expressible).  Each `def` below carries the place in the
source it embeds.
-/

/-- JavaScript strings are modelled as lists of characters. -/
abbrev Str := List Char

/-- Coerce a Lean string literal to the `Str` model. -/
def str (s : String) : Str := s.data

/-- ASCII lower-casing of a single character, as `String.prototype.toLowerCase`
acts on the ASCII range (the only range that occurs in the app's emails). -/
def lowerChar : Char → Char
  | 'A' => 'a'
  | 'B' => 'b'
  | 'C' => 'c'
  | 'D' => 'd'
  | 'E' => 'e'
  | 'F' => 'f'
  | 'G' => 'g'
  | 'H' => 'h'
  | 'I' => 'i'
  | 'J' => 'j'
  | 'K' => 'k'
  | 'L' => 'l'
  | 'M' => 'm'
  | 'N' => 'n'
  | 'O' => 'o'
  | 'P' => 'p'
  | 'Q' => 'q'
  | 'R' => 'r'
  | 'S' => 's'
  | 'T' => 't'
  | 'U' => 'u'
  | 'V' => 'v'
  | 'W' => 'w'
  | 'X' => 'x'
  | 'Y' => 'y'
  | 'Z' => 'z'
  | c => c

/-- `String.prototype.toLowerCase` on the model. -/
def jsToLower (s : Str) : Str := s.map lowerChar

/-- Whitespace characters recognised by `String.prototype.trim` and by
`ToNumber` (tab, LF, VT, FF, CR, space, NBSP, BOM). -/
def isJsSpace (c : Char) : Bool :=
  c = ' ' || c = '\t' || c = '\n' || c = Char.ofNat 13 || c = Char.ofNat 11 ||
  c = Char.ofNat 12 || c = Char.ofNat 160 || c = Char.ofNat 65279

/-- `String.prototype.trim` on the model: strip whitespace from both ends. -/
def jsTrim (s : Str) : Str :=
  ((s.dropWhile isJsSpace).reverse.dropWhile isJsSpace).reverse

/-- `String.prototype.replace` with single-character string arguments, which in
JavaScript replaces only the FIRST occurrence (App.tsx line 154:
`raw.replace(',', '.')`). -/
def replaceFirst (a b : Char) : Str → Str
  | [] => []
  | c :: rest => if c = a then b :: rest else c :: replaceFirst a b rest

/-- Result of JavaScript `Number(string)`: NaN, an infinity, or a finite value
(held exactly as a rational — the fold in the app is specified without
intermediate rounding, and every literal in the claims is exactly
representable). -/
inductive JsNum where
  | nan : JsNum
  | posInf : JsNum
  | negInf : JsNum
  | num : ℚ → JsNum
deriving DecidableEq

/-- Decimal digit test (codes 48-57). -/
def isDigitCh (c : Char) : Bool :=
  decide (48 ≤ c.toNat) && decide (c.toNat ≤ 57)

/-- Numeric value of one decimal digit character. -/
def digitVal (c : Char) : ℕ := c.toNat - 48

/-- Value of a decimal digit string (most significant first). -/
def digitsVal (l : Str) : ℕ :=
  l.foldl (fun acc c => 10 * acc + digitVal c) 0

/-- Value of a hexadecimal digit, if any (0-9, a-f, A-F). -/
def hexDigitVal (c : Char) : Option ℕ :=
  if isDigitCh c then some (digitVal c)
  else if decide (97 ≤ c.toNat) && decide (c.toNat ≤ 102) then some (c.toNat - 87)
  else if decide (65 ≤ c.toNat) && decide (c.toNat ≤ 70) then some (c.toNat - 55)
  else none

/-- Value of a digit string in a given base, failing on a non-digit. -/
def radixVal (base : ℕ) (digit : Char → Option ℕ) (l : Str) : Option ℕ :=
  l.foldl
    (fun acc c =>
      match acc, digit c with
      | some a, some d => some (a * base + d)
      | _, _ => none)
    (some 0)

/-- `10 ^ n` in `ℚ`, by explicit recursion. -/
def pow10n : ℕ → ℚ
  | 0 => 1
  | n + 1 => 10 * pow10n n

/-- `10 ^ e` in `ℚ` for an integer exponent. -/
def pow10z : ℤ → ℚ
  | Int.ofNat n => pow10n n
  | Int.negSucc n => 1 / pow10n (n + 1)

/-- Parse the optional exponent part of a decimal literal (`e`/`E`, optional
sign, at least one digit); the empty string means exponent `0`. -/
def parseExp : Str → Option ℤ
  | [] => some 0
  | c :: rest =>
    if c = 'e' || c = 'E' then
      match rest with
      | '+' :: ds => if ds ≠ [] && ds.all isDigitCh then some (digitsVal ds) else none
      | '-' :: ds => if ds ≠ [] && ds.all isDigitCh then some (-(digitsVal ds : ℤ)) else none
      | ds => if ds ≠ [] && ds.all isDigitCh then some (digitsVal ds) else none
    else none

/-- Parse an unsigned decimal literal `digits [. digits] [exp]` (at least one
digit before or after the point), ECMA-262 StrUnsignedDecimalLiteral minus the
`Infinity` case handled by the caller. -/
def parseDec (l : Str) : Option ℚ :=
  let intPart := l.takeWhile isDigitCh
  let rest := l.dropWhile isDigitCh
  match rest with
  | '.' :: rest2 =>
    let fracPart := rest2.takeWhile isDigitCh
    let rest3 := rest2.dropWhile isDigitCh
    if intPart = [] && fracPart = [] then none
    else
      match parseExp rest3 with
      | some e =>
        some (((digitsVal intPart : ℚ) + (digitsVal fracPart : ℚ) / pow10n fracPart.length)
          * pow10z e)
      | none => none
  | _ =>
    if intPart = [] then none
    else
      match parseExp rest with
      | some e => some ((digitsVal intPart : ℚ) * pow10z e)
      | none => none

/-- Parse an unsigned StrDecimalLiteral body: `Infinity` or a decimal literal. -/
def parseUnsigned (l : Str) : Option JsNum :=
  if l = str "Infinity" then some JsNum.posInf
  else (parseDec l).map JsNum.num

/-- Value of an octal digit string. -/
def octDigitsVal (l : Str) : ℕ :=
  l.foldl (fun acc c => 8 * acc + digitVal c) 0

/-- Value of a binary digit string. -/
def binDigitsVal (l : Str) : ℕ :=
  l.foldl (fun acc c => 2 * acc + digitVal c) 0

/-- Parse a signed StrDecimalLiteral: optional sign, then `Infinity` or a
decimal literal. -/
def parseSigned (l : Str) : Option JsNum :=
  match l with
  | '+' :: rest => parseUnsigned rest
  | '-' :: rest =>
    (parseUnsigned rest).map
      (fun v =>
        match v with
        | JsNum.posInf => JsNum.negInf
        | JsNum.negInf => JsNum.posInf
        | JsNum.num q => JsNum.num (-q)
        | JsNum.nan => JsNum.nan)
  | _ => parseUnsigned l

/-- Parse a StrNumericLiteral: a non-decimal integer literal (`0x`, `0o`,
`0b`), or a signed decimal literal / `Infinity`. -/
def parseNumericLiteral (l : Str) : Option JsNum :=
  match l with
  | '0' :: c :: rest =>
    if c = 'x' || c = 'X' then
      if rest ≠ [] then (radixVal 16 hexDigitVal rest).map (fun n => JsNum.num n) else none
    else if c = 'o' || c = 'O' then
      if rest ≠ [] && rest.all (fun d => '0' ≤ d && d ≤ '7') then
        some (JsNum.num (octDigitsVal rest)) else none
    else if c = 'b' || c = 'B' then
      if rest ≠ [] && rest.all (fun d => d = '0' || d = '1') then
        some (JsNum.num (binDigitsVal rest)) else none
    else
      parseSigned l
  | _ => parseSigned l

/-- JavaScript `Number(string)` (ECMA-262 ToNumber on strings): trim
whitespace; the empty remainder is `0`; otherwise parse a StrNumericLiteral,
yielding NaN when the whole remainder is not one. -/
def jsNumber (s : Str) : JsNum :=
  let t := jsTrim s
  if t = [] then JsNum.num 0
  else
    match parseNumericLiteral t with
    | some v => v
    | none => JsNum.nan

example : jsNumber (str "12.50") = JsNum.num (25 / 2) := by
  simp [jsNumber, jsTrim, isJsSpace, parseNumericLiteral, parseSigned, parseUnsigned,
    parseDec, parseExp, digitsVal, digitVal, str, isDigitCh, pow10n, pow10z]
  norm_num

example : jsNumber (str "abc") = JsNum.nan := by decide

example : jsNumber (str "") = JsNum.num 0 := by decide

example : jsNumber (str " 3e2 ") = JsNum.num 300 := by
  simp [jsNumber, jsTrim, isJsSpace, parseNumericLiteral, parseSigned, parseUnsigned,
    parseDec, parseExp, digitsVal, digitVal, str, isDigitCh, pow10n, pow10z]
  norm_num

example : jsNumber (str "-.5") = JsNum.num (-(1 / 2)) := by
  simp [jsNumber, jsTrim, isJsSpace, parseNumericLiteral, parseSigned, parseUnsigned,
    parseDec, parseExp, digitsVal, digitVal, str, isDigitCh, pow10n, pow10z]
  norm_num

example : jsNumber (str "Infinity") = JsNum.posInf := by decide

example : jsNumber (str "0x10") = JsNum.num 16 := by
  simp [jsNumber, jsTrim, isJsSpace, parseNumericLiteral, parseSigned, parseUnsigned,
    parseDec, parseExp, digitsVal, digitVal, str, isDigitCh, pow10n, pow10z, radixVal, hexDigitVal]

example : jsNumber (str "1,5") = JsNum.nan := by decide

/-- `Number.isFinite` on a `JsNum`. -/
def JsNum.isFinite : JsNum → Bool
  | JsNum.num _ => true
  | _ => false

/-- App.tsx lines 153-157, `parseValor`: replace the first comma with a
period, convert with `Number`, and return the value when it is finite,
otherwise `null` (modelled as `none`). -/
def parseValor (raw : Str) : Option ℚ :=
  match jsNumber (replaceFirst ',' '.' raw) with
  | JsNum.num q => some q
  | _ => none

/-- App.tsx line 19, `type TipoDespesa = 'Shared' | 'Per Person'` ("Per
Person" is the Individual kind of the spec). -/
inductive TipoDespesa where
  | shared : TipoDespesa
  | perPerson : TipoDespesa
deriving DecidableEq

/-- App.tsx line 20, `type Pessoa = 'You' | 'Wife'` (`you` is the spec's
PartyA / person1, `wife` is PartyB / person2). -/
inductive Pessoa where
  | you : Pessoa
  | wife : Pessoa
deriving DecidableEq

/-- App.tsx lines 22-30, the `Despesa` row type of the `expenses` table. -/
structure Despesa where
  id : Str
  name : Str
  amount : ℚ
  type : TipoDespesa
  paid_by : Pessoa
  user_id : Option Str
  created_at : Str
deriving DecidableEq

/-- One step of the `itens.forEach` loop in App.tsx lines 138-146, acting on
the pair of accumulators `(totalP1, totalP2)`. -/
def saldoStep (acc : ℚ × ℚ) (e : Despesa) : ℚ × ℚ :=
  if e.type = TipoDespesa.shared then
    if e.paid_by = Pessoa.you then (acc.1 + e.amount / 2, acc.2)
    else (acc.1, acc.2 + e.amount / 2)
  else
    if e.paid_by = Pessoa.you then (acc.1 + e.amount, acc.2)
    else (acc.1, acc.2 + e.amount)

/-- App.tsx lines 134-149, `saldo`: run both accumulators from zero over the
snapshot and return `totalP1 - totalP2` (positive: person2 owes person1). -/
def saldo (itens : List Despesa) : ℚ :=
  let t := itens.foldl saldoStep (0, 0)
  t.1 - t.2

/-- App.tsx lines 83-94 (session effect): both the startup `getSession` query
and every `onAuthStateChange` notification set the session identity to
`s?.user?.email?.toLowerCase() || null` — an empty or absent email becomes
`null`, any other email is lower-cased and stored WITHOUT any allow-list
check. -/
def sessionFromProviderEmail (em : Option Str) : Option Str :=
  match em with
  | none => none
  | some e => if jsToLower e = [] then none else some (jsToLower e)

/-- App.tsx part_000 variant (src/unnamed/part_000 lines 105-127): the same
transition but gated by the allow-list — an email that is present and whose
lower-casing is on the list is kept, anything else maps to `null`. -/
def sessionFromProviderEmailV2 (allowed : List Str) (em : Option Str) : Option Str :=
  match em with
  | none => none
  | some e => if allowed.contains (jsToLower e) then some e else none

/-- App.tsx line 264: the authenticated view renders exactly when
`sessionEmail` is non-null (`if (!sessionEmail) return` login screen). -/
def showAuthenticatedView (sessionEmail : Option Str) : Bool :=
  sessionEmail.isSome

/-- App.tsx lines 240-241: the allow-list membership check performed by
`entrar` — `allowedEmails.includes(email.trim().toLowerCase())`.  The
allow-list entries themselves are trimmed and lower-cased at startup
(lines 9-11). -/
def isAuthorized (allowed : List Str) (email : Str) : Bool :=
  allowed.contains (jsToLower (jsTrim email))

/-- Errors surfaced by the app's operations (spec §7 taxonomy; in the source
they surface as disabled actions, `alert(...)` calls and early returns). -/
inductive AppError where
  | validationError : AppError
  | unauthorized : AppError
  | providerError : Str → AppError
  | storeError : Str → AppError
deriving DecidableEq

/-- Outcome of `entrar` (App.tsx lines 239-257): the outbound
`signInWithOtp` requests issued, the (unchanged) session identity, the final
loading flag, and the surfaced error if any. -/
structure EntrarResult where
  requests : List Str
  sessionEmail : Option Str
  carregando : Bool
  error : Option AppError
deriving DecidableEq

/-- App.tsx lines 239-257, `entrar`: normalize the typed email
(`trim().toLowerCase()`); if it is not on the allow-list, alert and return
with no network call; otherwise issue exactly one `signInWithOtp` request and
surface the provider's error, if any.  `session` is the current
`sessionEmail`, which `entrar` never writes. -/
def entrar (allowed : List Str) (session : Option Str) (email : Str)
    (provider : Except Str Unit) : EntrarResult :=
  let e := jsToLower (jsTrim email)
  if ¬ allowed.contains e then
    { requests := [], sessionEmail := session, carregando := false,
      error := some AppError.unauthorized }
  else
    match provider with
    | Except.error m =>
      { requests := [e], sessionEmail := session, carregando := false,
        error := some (AppError.providerError m) }
    | Except.ok _ =>
      { requests := [e], sessionEmail := session, carregando := false, error := none }

/-- App.tsx lines 97-109, `buscarDespesas`: a failed read logs and returns,
leaving `itens` untouched; a successful read replaces `itens` with
`data || []`. -/
def buscarDespesas (itens : List Despesa) (outcome : Except Str (Option (List Despesa))) :
    List Despesa :=
  match outcome with
  | Except.error _ => itens
  | Except.ok data => data.getD []

/-- The draft / edit-session state of App.tsx lines 76-80: form fields
`nome`, `valor` (raw text), `tipo`, `pagoPor`, and `editando` (the record
being edited, or `null` when drafting a new one). -/
structure EditState where
  nome : Str
  valor : Str
  tipo : TipoDespesa
  pagoPor : Pessoa
  editando : Option Despesa
deriving DecidableEq

/-- Writes issued against the `expenses` store: insert (App.tsx line 184),
update-by-id (line 164), delete-by-id (line 208), and the bulk
delete-where-id-differs (line 227). -/
inductive StoreWrite where
  | insert : Str → ℚ → TipoDespesa → Pessoa → Option Str → StoreWrite
  | update : Str → Str → ℚ → TipoDespesa → Pessoa → StoreWrite
  | deleteEq : Str → StoreWrite
  | deleteNeq : Str → StoreWrite
deriving DecidableEq

/-- App.tsx line 151, `podeSalvar`: the save action is enabled exactly when
the trimmed name is non-empty and `parseValor(valor)` is not `null`. -/
def podeSalvar (st : EditState) : Bool :=
  jsTrim st.nome ≠ [] && (parseValor st.valor).isSome

/-- App.tsx lines 198-201 (and 383-388): the draft reset applied after a
successful save or an explicit cancel. -/
def resetDraft : EditState :=
  { nome := [], valor := [], tipo := TipoDespesa.shared, pagoPor := Pessoa.you,
    editando := none }

/-- The single store write issued by `salvarOuAtualizar` for a parsed value
`v`: an update-by-id of the four mutable fields when editing (App.tsx lines
164-172), an insert with the session's user id as owner when drafting
(lines 184-190). -/
def commitWrite (st : EditState) (userId : Option Str) (v : ℚ) : StoreWrite :=
  match st.editando with
  | some e => StoreWrite.update e.id st.nome v st.tipo st.pagoPor
  | none => StoreWrite.insert st.nome v st.tipo st.pagoPor userId

/-- Result of a commit / delete / clear action: the edit state afterwards,
the writes issued, whether a cache refresh was triggered, and the surfaced
error if any. -/
structure ActionResult where
  state : EditState
  writes : List StoreWrite
  refreshed : Bool
  error : Option AppError
deriving DecidableEq

/-- The spec's `commit()`, as App.tsx implements it: the save button is
enabled only under `podeSalvar` (lines 151 and 395-397, the gate standing
for a `ValidationError`), and `salvarOuAtualizar` (lines 159-204) re-parses
the value, issues the update or insert, and on a store error alerts and
returns with the draft intact; on success it clears `editando`, resets the
draft, and refetches.  `store` is the backend's verdict on the single write
issued. -/
def commit (st : EditState) (userId : Option Str) (store : Except Str Unit) :
    ActionResult :=
  if ¬ podeSalvar st then
    { state := st, writes := [], refreshed := false,
      error := some AppError.validationError }
  else
    match parseValor st.valor with
    | none =>
      { state := st, writes := [], refreshed := false,
        error := some AppError.validationError }
    | some v =>
      match store with
      | Except.error m =>
        { state := st, writes := [commitWrite st userId v], refreshed := false,
          error := some (AppError.storeError m) }
      | Except.ok _ =>
        { state := resetDraft, writes := [commitWrite st userId v], refreshed := true,
          error := none }

/-- App.tsx lines 206-214, `remover`: after the confirm prompt, issue one
delete-by-id; on error alert and return with no refresh, otherwise refetch.
The draft is never touched. -/
def remover (st : EditState) (confirmed : Bool) (id : Str) (store : Except Str Unit) :
    ActionResult :=
  if ¬ confirmed then
    { state := st, writes := [], refreshed := false, error := none }
  else
    match store with
    | Except.error m =>
      { state := st, writes := [StoreWrite.deleteEq id], refreshed := false,
        error := some (AppError.storeError m) }
    | Except.ok _ =>
      { state := st, writes := [StoreWrite.deleteEq id], refreshed := true, error := none }

/-- App.tsx line 230: the all-zero UUID used as the sentinel in
`.neq('id', ...)`. -/
def sentinelId : Str := str "00000000-0000-0000-0000-000000000000"

/-- Which records the bulk delete's `.neq('id', sentinel)` filter matches. -/
def neqFilterMatches (sentinel : Str) (r : Despesa) : Bool :=
  r.id ≠ sentinel

/-- App.tsx lines 225-237, `limparTudo`: after the confirm prompt, issue one
bulk delete with the `.neq('id', sentinelId)` filter; on error alert and
return with no refresh, otherwise refetch. -/
def limparTudo (st : EditState) (confirmed : Bool) (store : Except Str Unit) :
    ActionResult :=
  if ¬ confirmed then
    { state := st, writes := [], refreshed := false, error := none }
  else
    match store with
    | Except.error m =>
      { state := st, writes := [StoreWrite.deleteNeq sentinelId], refreshed := false,
        error := some (AppError.storeError m) }
    | Except.ok _ =>
      { state := st, writes := [StoreWrite.deleteNeq sentinelId], refreshed := true,
        error := none }

/-- Reference fold of claim C1, written from the spec's words (§4.2): the
per-record signed contribution `+amount/2`, `-amount/2`, `+amount`,
`-amount`. -/
def refContribution (e : Despesa) : ℚ :=
  match e.type, e.paid_by with
  | TipoDespesa.shared, Pessoa.you => e.amount / 2
  | TipoDespesa.shared, Pessoa.wife => -(e.amount / 2)
  | TipoDespesa.perPerson, Pessoa.you => e.amount
  | TipoDespesa.perPerson, Pessoa.wife => -e.amount

/-- The spec-side `computeBalance`: sum of the signed contributions. -/
def computeBalanceSpec (itens : List Despesa) : ℚ :=
  (itens.map refContribution).sum

/-- Contribution of a record to the `totalP1` accumulator. -/
def contribP1 (e : Despesa) : ℚ :=
  if e.paid_by = Pessoa.you then
    (if e.type = TipoDespesa.shared then e.amount / 2 else e.amount)
  else 0

/-- Contribution of a record to the `totalP2` accumulator. -/
def contribP2 (e : Despesa) : ℚ :=
  if e.paid_by = Pessoa.you then 0
  else (if e.type = TipoDespesa.shared then e.amount / 2 else e.amount)

/-- The Shared-100-by-PartyA record of the spec's scenario (§8). -/
def despesaShared100 : Despesa :=
  { id := str "r1", name := str "mercado", amount := 100, type := TipoDespesa.shared,
    paid_by := Pessoa.you, user_id := none, created_at := str "2024-01-02" }

/-- The Individual-30-by-PartyB record of the spec's scenario (§8). -/
def despesaIndividual30 : Despesa :=
  { id := str "r2", name := str "farmacia", amount := 30, type := TipoDespesa.perPerson,
    paid_by := Pessoa.wife, user_id := none, created_at := str "2024-01-01" }

theorem saldoStep_pair (a b : ℚ) (e : Despesa) :
    saldoStep (a, b) e = (a + contribP1 e, b + contribP2 e) := by
  unfold saldoStep contribP1 contribP2
  by_cases h1 : e.type = TipoDespesa.shared <;> by_cases h2 : e.paid_by = Pessoa.you <;>
    simp [h1, h2]

theorem saldo_foldl_eq (l : List Despesa) (a b : ℚ) :
    l.foldl saldoStep (a, b) = (a + (l.map contribP1).sum, b + (l.map contribP2).sum) := by
  induction l generalizing a b with
  | nil => simp
  | cons e rest ih =>
    rw [List.foldl_cons, saldoStep_pair, ih]
    simp only [List.map_cons, List.sum_cons, Prod.mk.injEq]
    constructor <;> ring

theorem saldo_eq_sums (l : List Despesa) :
    saldo l = (l.map contribP1).sum - (l.map contribP2).sum := by
  unfold saldo
  rw [saldo_foldl_eq]
  simp

theorem refContribution_eq (e : Despesa) :
    refContribution e = contribP1 e - contribP2 e := by
  unfold refContribution contribP1 contribP2
  rcases e with ⟨id, name, amount, ty, pb, uid, ca⟩
  cases ty <;> cases pb <;> simp

theorem computeBalanceSpec_eq (l : List Despesa) :
    computeBalanceSpec l = (l.map contribP1).sum - (l.map contribP2).sum := by
  unfold computeBalanceSpec
  induction l with
  | nil => simp
  | cons e rest ih =>
    simp only [List.map_cons, List.sum_cons, ih, refContribution_eq]
    ring

/-- Claim C1: `saldo` (App.tsx lines 134-149) equals the reference fold of
the spec — the sum over the snapshot of `+amount/2` for Shared paid by
PartyA, `-amount/2` for Shared paid by PartyB, `+amount` for Individual paid
by PartyA, `-amount` for Individual paid by PartyB; the empty snapshot gives
exactly zero, and the scenario snapshot {Shared 100 by PartyA; Individual 30
by PartyB} gives 20. -/
theorem saldo_is_reference_fold :
    (∀ itens : List Despesa, saldo itens = computeBalanceSpec itens)
    ∧ saldo [] = 0
    ∧ saldo [despesaShared100, despesaIndividual30] = 20 := by
  refine ⟨fun itens => ?_, ?_, ?_⟩
  · rw [saldo_eq_sums, computeBalanceSpec_eq]
  · simp [saldo_eq_sums]
  · simp [saldo, saldoStep, despesaShared100, despesaIndividual30]
    norm_num

/-- Claim C8: `saldo` is order-independent — permuting the snapshot does not
change the result — and repeated application on an unchanged snapshot yields
identical results (it is a pure function of the list). -/
theorem saldo_perm_invariant :
    (∀ itens itens' : List Despesa, itens.Perm itens' → saldo itens = saldo itens')
    ∧ ∀ itens : List Despesa, saldo itens = saldo itens := by
  constructor
  · intro l l' h
    rw [saldo_eq_sums, saldo_eq_sums,
      (h.map contribP1).sum_eq, (h.map contribP2).sum_eq]
  · intro l
    rfl

/-- Witness for C8: the two-record scenario snapshot and its transposition
have the same balance. -/
theorem saldo_perm_invariant_witness :
    saldo [despesaShared100, despesaIndividual30]
      = saldo [despesaIndividual30, despesaShared100] :=
  saldo_perm_invariant.1 _ _ (List.Perm.swap despesaIndividual30 despesaShared100 [])

/-- Claim C2 (evaluation at the failing input): the App.tsx session
transition (lines 83-94) passes any provider-delivered identity straight
into the session with no allow-list check — the notification email
`evil@x.com` yields a non-null session identity that is not on the
allow-list `{a@x.com, b@x.com}`, and with it the authenticated view is
shown.  This contradicts the claimed invariant (and the allow-list gate
that the part_000/part_002 variants do perform). -/
theorem sessionFromProviderEmail_accepts_unlisted :
    sessionFromProviderEmail (some (str "evil@x.com")) = some (str "evil@x.com")
    ∧ ([str "a@x.com", str "b@x.com"].contains (str "evil@x.com")) = false
    ∧ showAuthenticatedView (sessionFromProviderEmail (some (str "evil@x.com"))) = true := by
  refine ⟨?_, by decide, ?_⟩ <;> decide

/-- The part_000 variant of the session transition does preserve the
invariant: whenever it yields a non-null identity, that identity's
lower-casing is on the allow-list. -/
theorem sessionFromProviderEmailV2_invariant (allowed : List Str) (em : Option Str)
    (e : Str) (h : sessionFromProviderEmailV2 allowed em = some e) :
    allowed.contains (jsToLower e) = true := by
  cases em with
  | none => simp [sessionFromProviderEmailV2] at h
  | some x =>
    unfold sessionFromProviderEmailV2 at h
    simp at h
    obtain ⟨hm, rfl⟩ := h
    simpa using hm

/-- Claim C7: a failed ledger-cache refresh read (App.tsx lines 97-109)
leaves the previously held snapshot unchanged — `buscarDespesas` returns
`itens` untouched on any `StoreError`, and being a total function it cannot
crash. -/
theorem buscarDespesas_error_retains :
    ∀ (itens : List Despesa) (m : Str),
      buscarDespesas itens (Except.error m) = itens := by
  intro itens m
  rfl

theorem isJsSpace_lowerChar (c : Char) : isJsSpace (lowerChar c) = isJsSpace c := by
  unfold lowerChar
  split <;> rfl

theorem jsToLower_jsTrim (s : Str) : jsToLower (jsTrim s) = jsTrim (jsToLower s) := by
  have hsp : (isJsSpace ∘ lowerChar) = isJsSpace := funext fun c => isJsSpace_lowerChar c
  unfold jsTrim jsToLower
  simp only [List.dropWhile_map, hsp, ← List.map_reverse]

/-- Claim C9: the allow-list membership test of `entrar` (App.tsx lines
240-244) is pure and case-insensitive — any two identities with the same
lower-casing give the same verdict. -/
theorem isAuthorized_case_insensitive :
    ∀ (allowed : List Str) (x y : Str),
      jsToLower x = jsToLower y → isAuthorized allowed x = isAuthorized allowed y := by
  intro allowed x y h
  unfold isAuthorized
  rw [jsToLower_jsTrim, jsToLower_jsTrim, h]

/-- Witness for C9: `X@Y.com` and `x@y.com` get the same verdict. -/
theorem isAuthorized_case_insensitive_witness :
    isAuthorized [str "x@y.com"] (str "X@Y.com")
      = isAuthorized [str "x@y.com"] (str "x@y.com") :=
  isAuthorized_case_insensitive [str "x@y.com"] (str "X@Y.com") (str "x@y.com") (by decide)

theorem podeSalvar_eq_false (st : EditState) :
    podeSalvar st = false ↔ (jsTrim st.nome = [] ∨ parseValor st.valor = none) := by
  unfold podeSalvar
  cases h : parseValor st.valor <;> by_cases h2 : jsTrim st.nome = [] <;> simp [h, h2]

/-- Claim C3: the commit action fails with a `ValidationError` exactly when
the draft name trims to empty or `parseValor` rejects the amount text; on
such a failure no store write is issued and the draft is unchanged; and the
two scenario inputs behave as stated — `"12,50"` parses to `12.5` and
`"abc"` is rejected. -/
theorem commit_validation :
    (∀ (st : EditState) (uid : Option Str) (store : Except Str Unit),
      ((commit st uid store).error = some AppError.validationError ↔
        (jsTrim st.nome = [] ∨ parseValor st.valor = none))
      ∧ ((jsTrim st.nome = [] ∨ parseValor st.valor = none) →
          (commit st uid store).writes = [] ∧ (commit st uid store).state = st))
    ∧ parseValor (str "12,50") = some (25 / 2)
    ∧ parseValor (str "abc") = none := by
  refine ⟨fun st uid store => ?_, ?_, by decide⟩
  · cases hp : podeSalvar st with
    | false =>
      have hiff := (podeSalvar_eq_false st).mp hp
      unfold commit
      simp [hp, hiff]
    | true =>
      have hnot : ¬ (jsTrim st.nome = [] ∨ parseValor st.valor = none) := by
        intro hcontra
        rw [(podeSalvar_eq_false st).mpr hcontra] at hp
        exact Bool.false_ne_true hp
      cases hv : parseValor st.valor with
      | none => exact absurd (Or.inr hv) hnot
      | some v =>
        unfold commit
        cases store <;> simp [hp, hv, hnot] <;> exact fun hh => hnot (Or.inl hh)
  · unfold parseValor
    have : replaceFirst ',' '.' (str "12,50") = str "12.50" := by decide
    rw [this]
    have h1250 : jsNumber (str "12.50") = JsNum.num (25 / 2) := by
      simp [jsNumber, jsTrim, isJsSpace, parseNumericLiteral, parseSigned, parseUnsigned,
        parseDec, parseExp, digitsVal, digitVal, str, isDigitCh, pow10n, pow10z]
      norm_num
    rw [h1250]

/-- Witness for C3: a whitespace-only name makes the commit fail with a
`ValidationError`, issuing no write and leaving the draft as it was. -/
theorem commit_validation_witness :
    (commit { nome := str " ", valor := str "12,50", tipo := TipoDespesa.shared,
              pagoPor := Pessoa.you, editando := none } none (Except.ok ())).writes = []
    ∧ (commit { nome := str " ", valor := str "12,50", tipo := TipoDespesa.shared,
                pagoPor := Pessoa.you, editando := none } none (Except.ok ())).state
        = { nome := str " ", valor := str "12,50", tipo := TipoDespesa.shared,
            pagoPor := Pessoa.you, editando := none } :=
  (commit_validation.1
    { nome := str " ", valor := str "12,50", tipo := TipoDespesa.shared,
      pagoPor := Pessoa.you, editando := none } none (Except.ok ())).2 (Or.inl (by decide))

/-- Claim C4: when the backend rejects the single write a commit issues
(update-by-id from editing, insert from drafting), the session keeps its
state — all draft fields and the editing target unchanged — no refresh
happens, and the `StoreError` is surfaced. -/
theorem commit_store_failure :
    ∀ (st : EditState) (uid : Option Str) (m : Str),
      podeSalvar st = true →
      (commit st uid (Except.error m)).state = st
      ∧ (commit st uid (Except.error m)).error = some (AppError.storeError m)
      ∧ (commit st uid (Except.error m)).refreshed = false
      ∧ ∀ v : ℚ, parseValor st.valor = some v →
          (commit st uid (Except.error m)).writes = [commitWrite st uid v] := by
  intro st uid m hp
  cases hv : parseValor st.valor with
  | none =>
    unfold podeSalvar at hp
    rw [hv] at hp
    simp at hp
  | some v =>
    unfold commit
    simp only [hp, hv]
    refine ⟨by simp, by simp, by simp, fun w hw => ?_⟩
    cases hw
    simp

/-- Witness for C4: a failed update while editing the Shared-100 record
leaves the machine editing it with the same draft and surfaces the error. -/
theorem commit_store_failure_witness :
    (commit { nome := str "mercado", valor := str "10", tipo := TipoDespesa.shared,
              pagoPor := Pessoa.you, editando := some despesaShared100 }
        none (Except.error (str "offline"))).state
      = { nome := str "mercado", valor := str "10", tipo := TipoDespesa.shared,
          pagoPor := Pessoa.you, editando := some despesaShared100 }
    ∧ (commit { nome := str "mercado", valor := str "10", tipo := TipoDespesa.shared,
                pagoPor := Pessoa.you, editando := some despesaShared100 }
          none (Except.error (str "offline"))).error
        = some (AppError.storeError (str "offline")) :=
  ⟨(commit_store_failure _ none (str "offline") (by decide)).1,
   (commit_store_failure _ none (str "offline") (by decide)).2.1⟩

/-- Claim C10 (implicit): `Number('')` is `0`, which passes the finiteness
check, so `parseValor` maps the empty amount text to `0`; a commit with a
non-blank name and empty amount text is therefore not rejected as a
validation failure but inserts a record with amount `0`. -/
theorem commit_empty_amount :
    parseValor [] = some 0
    ∧ ∀ (st : EditState) (uid : Option Str),
        jsTrim st.nome ≠ [] → st.valor = [] → st.editando = none →
        (commit st uid (Except.ok ())).error = none
        ∧ (commit st uid (Except.ok ())).writes
            = [StoreWrite.insert st.nome 0 st.tipo st.pagoPor uid] := by
  refine ⟨by decide, fun st uid h1 h2 h3 => ?_⟩
  have hv : parseValor st.valor = some 0 := by
    rw [h2]
    decide
  have hp : podeSalvar st = true := by
    unfold podeSalvar
    simp [h1, hv]
  unfold commit
  simp only [hp, hv]
  refine ⟨by simp, ?_⟩
  simp [commitWrite, h3]

/-- Witness for C10: committing name `luz` with empty amount text succeeds
and inserts amount `0`. -/
theorem commit_empty_amount_witness :
    (commit { nome := str "luz", valor := [], tipo := TipoDespesa.shared,
              pagoPor := Pessoa.wife, editando := none }
        (some (str "u1")) (Except.ok ())).error = none
    ∧ (commit { nome := str "luz", valor := [], tipo := TipoDespesa.shared,
                pagoPor := Pessoa.wife, editando := none }
          (some (str "u1")) (Except.ok ())).writes
        = [StoreWrite.insert (str "luz") 0 TipoDespesa.shared Pessoa.wife
            (some (str "u1"))] :=
  commit_empty_amount.2
    { nome := str "luz", valor := [], tipo := TipoDespesa.shared,
      pagoPor := Pessoa.wife, editando := none }
    (some (str "u1")) (by decide) rfl rfl

/-- Claim C5: `limparTudo` issues one bulk delete whose `.neq(id, sentinel)`
filter matches every record whose identifier differs from the all-zero
sentinel; on success it triggers a refresh, on failure it surfaces the
`StoreError` with no state change — the same success/failure handling as
`remover`. -/
theorem limparTudo_spec :
    ∀ (st : EditState) (store : Except Str Unit),
      (limparTudo st true store).writes = [StoreWrite.deleteNeq sentinelId]
      ∧ (∀ r : Despesa, r.id ≠ sentinelId → neqFilterMatches sentinelId r = true)
      ∧ (∀ m : Str, store = Except.error m →
          (limparTudo st true store).state = st
          ∧ (limparTudo st true store).refreshed = false
          ∧ (limparTudo st true store).error = some (AppError.storeError m))
      ∧ (store = Except.ok () →
          (limparTudo st true store).refreshed = true
          ∧ (limparTudo st true store).error = none)
      ∧ ∀ id : Str,
          (remover st true id store).state = (limparTudo st true store).state
          ∧ (remover st true id store).refreshed = (limparTudo st true store).refreshed
          ∧ (remover st true id store).error = (limparTudo st true store).error := by
  intro st store
  refine ⟨?_, fun r h => ?_, fun m hm => ?_, fun hok => ?_, fun id => ?_⟩
  · cases store <;> rfl
  · simp [neqFilterMatches, h]
  · subst hm
    exact ⟨rfl, rfl, rfl⟩
  · subst hok
    exact ⟨rfl, rfl⟩
  · cases store <;> exact ⟨rfl, rfl, rfl⟩

/-- Witness for C5: with the backend down, the bulk delete is issued, the
state is unchanged and the `StoreError` is surfaced; the filter matches the
scenario record. -/
theorem limparTudo_spec_witness :
    (limparTudo resetDraft true (Except.error (str "down"))).writes
        = [StoreWrite.deleteNeq sentinelId]
    ∧ neqFilterMatches sentinelId despesaShared100 = true
    ∧ (limparTudo resetDraft true (Except.error (str "down"))).state = resetDraft
    ∧ (limparTudo resetDraft true (Except.error (str "down"))).error
        = some (AppError.storeError (str "down")) :=
  ⟨(limparTudo_spec resetDraft (Except.error (str "down"))).1,
   (limparTudo_spec resetDraft (Except.error (str "down"))).2.1 despesaShared100 (by decide),
   ((limparTudo_spec resetDraft (Except.error (str "down"))).2.2.1 (str "down") rfl).1,
   ((limparTudo_spec resetDraft (Except.error (str "down"))).2.2.1 (str "down") rfl).2.2⟩

/-- Claim C6: `entrar` rejects an identity that fails the allow-list check
immediately — no outbound request, `Unauthorized` surfaced — and for an
allow-listed identity issues exactly one outbound authentication request;
in neither case does it write the session identity. -/
theorem entrar_spec :
    ∀ (allowed : List Str) (session : Option Str) (email : Str)
      (provider : Except Str Unit),
      (isAuthorized allowed email = false →
        (entrar allowed session email provider).requests = []
        ∧ (entrar allowed session email provider).error = some AppError.unauthorized
        ∧ (entrar allowed session email provider).sessionEmail = session)
      ∧ (isAuthorized allowed email = true →
          (entrar allowed session email provider).requests = [jsToLower (jsTrim email)]
          ∧ (entrar allowed session email provider).sessionEmail = session) := by
  intro allowed session email provider
  unfold entrar isAuthorized
  constructor
  · intro h
    have hm : jsToLower (jsTrim email) ∉ allowed := by simpa using h
    simp [hm]
  · intro h
    have hm : jsToLower (jsTrim email) ∈ allowed := by simpa using h
    cases provider <;> simp [hm]

/-- Witness for C6: `evil@x.com` is rejected with no request against the
allow-list `{a@x.com}`, while ` A@X.com` (allow-listed after trimming and
lower-casing) produces exactly one request; the session stays `none`. -/
theorem entrar_spec_witness :
    ((entrar [str "a@x.com"] none (str "evil@x.com") (Except.ok ())).requests = []
      ∧ (entrar [str "a@x.com"] none (str "evil@x.com") (Except.ok ())).error
          = some AppError.unauthorized
      ∧ (entrar [str "a@x.com"] none (str "evil@x.com") (Except.ok ())).sessionEmail
          = none)
    ∧ ((entrar [str "a@x.com"] none (str " A@X.com") (Except.ok ())).requests
          = [jsToLower (jsTrim (str " A@X.com"))]
      ∧ (entrar [str "a@x.com"] none (str " A@X.com") (Except.ok ())).sessionEmail
          = none) :=
  ⟨(entrar_spec [str "a@x.com"] none (str "evil@x.com") (Except.ok ())).1 (by decide),
   (entrar_spec [str "a@x.com"] none (str " A@X.com") (Except.ok ())).2 (by decide)⟩
